import Mathlib

/-!
Verification of the WhisperKit C binding (`src/WhisperKit/WhisperKit.c`).

The binding wraps an external speech-recognition engine (whisper.cpp),
consumed as a black box. We model the engine as a record of abstract
functions (`WhisperEngine`), parameterised by an opaque context type `Ctx`.
Heap allocation is modelled by an oracle `allocOk : Nat → Bool` telling
whether an allocation of a given size succeeds. Observable side effects
(engine invocations, stderr logging, segment reads, allocations, frees)
are recorded in an explicit event trace, so that claims of the form
"the engine is never invoked" or "the segment list is never read" become
statements about the trace.

C strings are modelled as byte lists (`CStr`), the NUL terminator left
implicit; `strlen` is `List.length`. The engine's parameter structs are
modelled with the fields the binding assigns; all remaining engine-defined
fields (including the sampling-strategy field set by the engine's default
constructor) are collapsed into an opaque `rest : Nat` field, preserved
untouched by the binding.
-/

/-- Sampling strategies selectable when asking the engine for default
decode parameters (`whisper_full_default_params`). -/
inductive SamplingStrategy where
  | GREEDY
  | BEAM_SEARCH
deriving DecidableEq, Repr

/-- Model of `struct whisper_context_params`: the `use_gpu` flag the
binding assigns, plus an opaque remainder standing for every other
engine-defined field. -/
structure WhisperContextParams where
  use_gpu : Bool
  rest : Nat
deriving DecidableEq, Repr

/-- Model of `struct whisper_full_params`: exactly the fields assigned by
`whisper_kit_transcribe`, plus an opaque remainder (`rest`) standing for
every other engine-defined field, including the strategy field filled in
by the engine's default-parameter constructor. -/
structure WhisperFullParams where
  print_progress : Bool
  print_special : Bool
  print_realtime : Bool
  print_timestamps : Bool
  single_segment : Bool
  max_tokens : Int
  language : Option String
  n_threads : Int
  speed_up : Bool
  suppress_blank : Bool
  suppress_nst : Bool
  rest : Nat
deriving DecidableEq, Repr

/-- A C string as its byte content; the NUL terminator is implicit and
interior bytes are nonzero, so `strlen` is `List.length`. -/
abbrev CStr := List Nat

/-- The external inference engine, as the black box the binding consumes:
default-config constructor, load-from-file, default decode parameters,
synchronous full decode returning a status code, and the post-decode
segment queries. `Ctx` is the opaque `struct whisper_context`. A segment
text of `none` models `whisper_full_get_segment_text` returning NULL. -/
structure WhisperEngine (Ctx : Type) where
  whisper_context_default_params : WhisperContextParams
  whisper_init_from_file_with_params : String → WhisperContextParams → Option Ctx
  whisper_full_default_params : SamplingStrategy → WhisperFullParams
  whisper_full : Ctx → WhisperFullParams → List Float → Int → Int
  whisper_full_n_segments : Ctx → Nat
  whisper_full_get_segment_text : Ctx → Nat → Option CStr

/-- Observable side effects of the binding, in program order. -/
inductive Event where
  | engInitFromFile (path : String) (cparams : WhisperContextParams)
  | engDecode (params : WhisperFullParams) (samples : List Float) (n_samples : Int)
  | logErr (msg : String)
  | readNSegments
  | readSegmentText (i : Nat)
  | alloc (size : Nat) (ok : Bool)
  | engFree
  | freeString

/-- The context parameters `whisper_kit_init` builds: the engine's default
configuration with `use_gpu` overwritten to `true` (the source does this
unconditionally, with no compile-time guard). -/
def init_context_params {Ctx : Type} (eng : WhisperEngine Ctx) : WhisperContextParams :=
  { eng.whisper_context_default_params with use_gpu := true }

/-- `whisper_kit_init`: build context params, delegate to the engine's
load routine; on a NULL result log a diagnostic naming the path and
return NULL, otherwise return the engine context as the opaque handle. -/
def whisper_kit_init {Ctx : Type} (eng : WhisperEngine Ctx) (model_path : String) :
    Option Ctx × List Event :=
  match eng.whisper_init_from_file_with_params model_path (init_context_params eng) with
  | none =>
      (none, [Event.engInitFromFile model_path (init_context_params eng),
              Event.logErr ("whisper_kit: failed to load model from " ++ model_path ++ "\n")])
  | some ctx =>
      (some ctx, [Event.engInitFromFile model_path (init_context_params eng)])

/-- `whisper_kit_free`: NULL-guarded call to the engine's `whisper_free`. -/
def whisper_kit_free {Ctx : Type} (ctx : Option Ctx) : List Event :=
  match ctx with
  | none => []
  | some _ => [Event.engFree]

/-- The decode parameters `whisper_kit_transcribe` builds on every call:
the engine's defaults for the GREEDY strategy with the eleven fields the
source assigns overwritten. Note this depends only on the engine, never on
the caller's samples or sample count. -/
def transcribe_params {Ctx : Type} (eng : WhisperEngine Ctx) : WhisperFullParams :=
  { eng.whisper_full_default_params SamplingStrategy.GREEDY with
    print_progress := false
    print_special := false
    print_realtime := false
    print_timestamps := false
    single_segment := true
    max_tokens := 0
    language := some "en"
    n_threads := 4
    speed_up := false
    suppress_blank := true
    suppress_nst := true }

/-- Byte length contributed by segment `i` in the first pass of
`whisper_kit_transcribe`: `strlen` of its text, or `0` when the engine
returns NULL for it. -/
def segment_strlen {Ctx : Type} (eng : WhisperEngine Ctx) (wctx : Ctx) (i : Nat) : Nat :=
  match eng.whisper_full_get_segment_text wctx i with
  | some t => t.length
  | none => 0

/-- The first loop of `whisper_kit_transcribe`: total byte length of all
segment texts, accumulated over segment indices `0, …, n-1`. -/
def total_len {Ctx : Type} (eng : WhisperEngine Ctx) (wctx : Ctx) (n : Nat) : Nat :=
  (List.range n).foldl (fun acc i => acc + segment_strlen eng wctx i) 0

/-- The second loop of `whisper_kit_transcribe`: starting from the empty
string, `strcat` each non-NULL segment text in index order (a NULL text is
skipped, mirroring the `if (text)` guard). -/
def concat_segments {Ctx : Type} (eng : WhisperEngine Ctx) (wctx : Ctx) (n : Nat) : CStr :=
  (List.range n).foldl
    (fun acc i =>
      match eng.whisper_full_get_segment_text wctx i with
      | some t => acc ++ t
      | none => acc) []

/-- `whisper_kit_transcribe`: argument guards, fixed decode parameters,
one synchronous engine decode, then segment collection. The returned pair
is (result string or NULL, trace of observable side effects). -/
def whisper_kit_transcribe {Ctx : Type} (eng : WhisperEngine Ctx) (allocOk : Nat → Bool)
    (ctx : Option Ctx) (samples : Option (List Float)) (n_samples : Int) :
    Option CStr × List Event :=
  match ctx, samples with
  | some wctx, some smp =>
    if n_samples ≤ 0 then (none, [])
    else if eng.whisper_full wctx (transcribe_params eng) smp n_samples ≠ 0 then
      (none, [Event.engDecode (transcribe_params eng) smp n_samples,
              Event.logErr ("whisper_kit: transcription failed with error "
                ++ toString (eng.whisper_full wctx (transcribe_params eng) smp n_samples)
                ++ "\n")])
    else if eng.whisper_full_n_segments wctx = 0 then
      if allocOk 1 then
        (some [], [Event.engDecode (transcribe_params eng) smp n_samples,
                   Event.readNSegments, Event.alloc 1 true])
      else
        (none, [Event.engDecode (transcribe_params eng) smp n_samples,
                Event.readNSegments, Event.alloc 1 false])
    else if allocOk (total_len eng wctx (eng.whisper_full_n_segments wctx) + 1) then
      (some (concat_segments eng wctx (eng.whisper_full_n_segments wctx)),
       Event.engDecode (transcribe_params eng) smp n_samples ::
         Event.readNSegments ::
         (List.range (eng.whisper_full_n_segments wctx)).map Event.readSegmentText
         ++ Event.alloc (total_len eng wctx (eng.whisper_full_n_segments wctx) + 1) true ::
             (List.range (eng.whisper_full_n_segments wctx)).map Event.readSegmentText)
    else
      (none,
       Event.engDecode (transcribe_params eng) smp n_samples ::
         Event.readNSegments ::
         (List.range (eng.whisper_full_n_segments wctx)).map Event.readSegmentText
         ++ [Event.alloc (total_len eng wctx (eng.whisper_full_n_segments wctx) + 1) false])
  | _, _ => (none, [])

/-- `whisper_kit_free_string`: NULL-guarded `free` of a transcript. -/
def whisper_kit_free_string (str : Option CStr) : List Event :=
  match str with
  | none => []
  | some _ => [Event.freeString]

/-- `whisper_kit_metal_available`: the compile-time flag `GGML_USE_METAL`,
modelled as an explicit boolean argument. -/
def whisper_kit_metal_available (GGML_USE_METAL : Bool) : Bool :=
  if GGML_USE_METAL then true else false

/-- `whisper_kit_version`: a fixed literal. -/
def whisper_kit_version : String := "1.0.0"

/-! ### Concrete engine instances used as witnesses and counterexamples -/

/-- A concrete engine whose decode succeeds with two segments, the second
of which has a NULL text. Segment 0 carries the bytes of "Hi". -/
def engW : WhisperEngine Unit where
  whisper_context_default_params := ⟨false, 0⟩
  whisper_init_from_file_with_params := fun _ _ => some ()
  whisper_full_default_params := fun _ => ⟨true, true, true, true, false, 5, none, 1, true, false, false, 7⟩
  whisper_full := fun _ _ _ _ => 0
  whisper_full_n_segments := fun _ => 2
  whisper_full_get_segment_text := fun _ i => if i = 0 then some [72, 105] else none

/-- A concrete engine whose decode succeeds with zero segments. -/
def engEmpty : WhisperEngine Unit where
  whisper_context_default_params := ⟨false, 0⟩
  whisper_init_from_file_with_params := fun _ _ => some ()
  whisper_full_default_params := fun _ => ⟨true, true, true, true, false, 5, none, 1, true, false, false, 7⟩
  whisper_full := fun _ _ _ _ => 0
  whisper_full_n_segments := fun _ => 0
  whisper_full_get_segment_text := fun _ _ => none

/-- A concrete engine whose decode fails with status 3. -/
def engFail : WhisperEngine Unit where
  whisper_context_default_params := ⟨false, 0⟩
  whisper_init_from_file_with_params := fun _ _ => some ()
  whisper_full_default_params := fun _ => ⟨true, true, true, true, false, 5, none, 1, true, false, false, 7⟩
  whisper_full := fun _ _ _ _ => 3
  whisper_full_n_segments := fun _ => 2
  whisper_full_get_segment_text := fun _ _ => none

/-- A concrete engine whose load routine always returns NULL, and whose
default context params do not request the GPU. -/
def engNoLoad : WhisperEngine Unit where
  whisper_context_default_params := ⟨false, 0⟩
  whisper_init_from_file_with_params := fun _ _ => none
  whisper_full_default_params := fun _ => ⟨true, true, true, true, false, 5, none, 1, true, false, false, 7⟩
  whisper_full := fun _ _ _ _ => 0
  whisper_full_n_segments := fun _ => 0
  whisper_full_get_segment_text := fun _ _ => none

/-! ### Helper lemmas -/

/-- Folding `acc + f i` over a list computes the initial value plus the
sum of `f` over the list. -/
theorem foldl_add_map_sum (f : Nat → Nat) (l : List Nat) (s : Nat) :
    l.foldl (fun acc i => acc + f i) s = s + (l.map f).sum := by
  induction l generalizing s with
  | nil => simp
  | cons x xs ih => simp [List.foldl_cons, ih, Nat.add_assoc]

/-- The `strcat` accumulation appends, in index order, exactly the
non-NULL segment texts: its length grows by each segment's `strlen`. -/
theorem concat_foldl_length {Ctx : Type} (eng : WhisperEngine Ctx) (wctx : Ctx)
    (l : List Nat) (acc : CStr) :
    (l.foldl
      (fun acc i =>
        match eng.whisper_full_get_segment_text wctx i with
        | some t => acc ++ t
        | none => acc) acc).length
      = acc.length + (l.map (segment_strlen eng wctx)).sum := by
  induction l generalizing acc with
  | nil => simp
  | cons x xs ih =>
      rw [List.foldl_cons, ih]
      cases h : eng.whisper_full_get_segment_text wctx x <;>
        simp [segment_strlen, h, Nat.add_assoc]

/-- The `strcat` accumulation equals the flat concatenation (no
separators) of the segment texts, a NULL text contributing nothing. -/
theorem concat_foldl_eq_join {Ctx : Type} (eng : WhisperEngine Ctx) (wctx : Ctx)
    (l : List Nat) (acc : CStr) :
    l.foldl
      (fun acc i =>
        match eng.whisper_full_get_segment_text wctx i with
        | some t => acc ++ t
        | none => acc) acc
      = acc ++ (l.map (fun i => (eng.whisper_full_get_segment_text wctx i).getD [])).flatten := by
  induction l generalizing acc with
  | nil => simp
  | cons x xs ih =>
      rw [List.foldl_cons, ih]
      cases h : eng.whisper_full_get_segment_text wctx x <;> simp [h]

/-- `concat_segments` is the in-order, separator-free concatenation of
the non-NULL segment texts. -/
theorem concat_segments_eq_join {Ctx : Type} (eng : WhisperEngine Ctx) (wctx : Ctx) (n : Nat) :
    concat_segments eng wctx n
      = ((List.range n).map (fun i => (eng.whisper_full_get_segment_text wctx i).getD [])).flatten := by
  unfold concat_segments
  rw [concat_foldl_eq_join]
  simp

/-- The byte length of the concatenated result equals the precomputed
total length of the first pass. -/
theorem concat_segments_length {Ctx : Type} (eng : WhisperEngine Ctx) (wctx : Ctx) (n : Nat) :
    (concat_segments eng wctx n).length = total_len eng wctx n := by
  unfold concat_segments total_len
  rw [concat_foldl_length, foldl_add_map_sum]
  simp

/-! ### Claims -/

/-- C8: `release(null)` and `release_string(null)` are no-ops producing no
side effects at all: neither the engine's free routine nor the
deallocator is invoked, the trace is empty. -/
theorem C8_null_free_noop :
    (∀ (Ctx : Type), whisper_kit_free (none : Option Ctx) = []) ∧
    whisper_kit_free_string none = [] :=
  ⟨fun _ => rfl, rfl⟩

/-- C9: the capability queries are pure constants: `version` is the fixed
literal "1.0.0" on every call, and `metal_available` is fully determined
by the compile-time flag, returning the same boolean for each flag value
with no runtime input. -/
theorem C9_capabilities_pure :
    whisper_kit_version = "1.0.0" ∧
    whisper_kit_metal_available true = true ∧
    whisper_kit_metal_available false = false :=
  ⟨rfl, rfl, rfl⟩

/-- C3: a null handle, a null sample buffer, or a non-positive sample
count makes `whisper_kit_transcribe` return NULL immediately with an
empty side-effect trace: in particular the engine's decode entry point is
never invoked. -/
theorem C3_argument_guards {Ctx : Type} (eng : WhisperEngine Ctx) (allocOk : Nat → Bool)
    (wctx : Ctx) (smp : List Float) (n_samples : Int) :
    whisper_kit_transcribe eng allocOk none (some smp) n_samples = (none, [])
    ∧ whisper_kit_transcribe eng allocOk (some wctx) none n_samples = (none, [])
    ∧ whisper_kit_transcribe eng allocOk none none n_samples = (none, [])
    ∧ (n_samples ≤ 0 →
        whisper_kit_transcribe eng allocOk (some wctx) (some smp) n_samples = (none, [])) := by
  refine ⟨rfl, rfl, rfl, fun h => ?_⟩
  simp only [whisper_kit_transcribe]
  rw [if_pos h]

/-- Witness for C3 at concrete inputs, including the non-positive-count
guard discharged at count 0. -/
theorem C3_argument_guards_witness :
    whisper_kit_transcribe engW (fun _ => true) none (some []) 5 = (none, [])
    ∧ whisper_kit_transcribe engW (fun _ => true) (some ()) (some []) 0 = (none, []) :=
  ⟨(C3_argument_guards engW (fun _ => true) () [] 5).1,
   (C3_argument_guards engW (fun _ => true) () [] 0).2.2.2 (by decide)⟩

/-- C4: when the engine's decode returns a non-zero status, transcribe
logs that status code to the error stream and returns NULL; the trace is
exactly the decode call followed by the log entry, so the segment list is
never read (no `readNSegments` or `readSegmentText` event occurs). -/
theorem C4_decode_failure {Ctx : Type} (eng : WhisperEngine Ctx) (allocOk : Nat → Bool)
    (wctx : Ctx) (smp : List Float) (n_samples : Int)
    (hn : 0 < n_samples)
    (hdec : eng.whisper_full wctx (transcribe_params eng) smp n_samples ≠ 0) :
    whisper_kit_transcribe eng allocOk (some wctx) (some smp) n_samples =
      (none, [Event.engDecode (transcribe_params eng) smp n_samples,
              Event.logErr ("whisper_kit: transcription failed with error "
                ++ toString (eng.whisper_full wctx (transcribe_params eng) smp n_samples)
                ++ "\n")]) := by
  simp only [whisper_kit_transcribe]
  rw [if_neg (not_le.mpr hn), if_pos hdec]

/-- Witness for C4 at a concrete engine whose decode fails with status 3. -/
theorem C4_decode_failure_witness :
    0 < (2 : Int) ∧
    engFail.whisper_full () (transcribe_params engFail) [] 2 ≠ 0 ∧
    whisper_kit_transcribe engFail (fun _ => true) (some ()) (some []) 2 =
      (none, [Event.engDecode (transcribe_params engFail) [] 2,
              Event.logErr ("whisper_kit: transcription failed with error "
                ++ toString (engFail.whisper_full () (transcribe_params engFail) [] 2)
                ++ "\n")]) :=
  ⟨by decide, by decide,
   C4_decode_failure engFail (fun _ => true) () [] 2 (by decide) (by decide)⟩

/-- C5: every call that reaches the engine passes the same fixed decode
configuration, depending only on the engine's GREEDY defaults and never
on the caller's samples or count: the first trace event is the decode
with `transcribe_params eng`, which is the engine's default parameters
for the GREEDY strategy with single-segment mode on, no token limit,
language "en", 4 threads, blank/non-speech suppression on, and all
progress/debug printing off. -/
theorem C5_fixed_params {Ctx : Type} (eng : WhisperEngine Ctx) (allocOk : Nat → Bool)
    (wctx : Ctx) (smp : List Float) (n_samples : Int)
    (hn : 0 < n_samples) :
    (whisper_kit_transcribe eng allocOk (some wctx) (some smp) n_samples).2.head?
        = some (Event.engDecode (transcribe_params eng) smp n_samples)
    ∧ transcribe_params eng =
        { eng.whisper_full_default_params SamplingStrategy.GREEDY with
          print_progress := false
          print_special := false
          print_realtime := false
          print_timestamps := false
          single_segment := true
          max_tokens := 0
          language := some "en"
          n_threads := 4
          speed_up := false
          suppress_blank := true
          suppress_nst := true }
    ∧ (transcribe_params eng).single_segment = true
    ∧ (transcribe_params eng).max_tokens = 0
    ∧ (transcribe_params eng).language = some "en"
    ∧ (transcribe_params eng).n_threads = 4
    ∧ (transcribe_params eng).suppress_blank = true
    ∧ (transcribe_params eng).suppress_nst = true
    ∧ (transcribe_params eng).print_progress = false
    ∧ (transcribe_params eng).print_special = false
    ∧ (transcribe_params eng).print_realtime = false
    ∧ (transcribe_params eng).print_timestamps = false := by
  refine ⟨?_, rfl, rfl, rfl, rfl, rfl, rfl, rfl, rfl, rfl, rfl, rfl⟩
  simp only [whisper_kit_transcribe]
  rw [if_neg (not_le.mpr hn)]
  split
  · rfl
  · split
    · split <;> rfl
    · split <;> rfl

/-- Witness for C5 at a concrete engine and the empty sample buffer. -/
theorem C5_fixed_params_witness :
    0 < (1 : Int) ∧
    ((whisper_kit_transcribe engW (fun _ => true) (some ()) (some []) 1).2.head?
        = some (Event.engDecode (transcribe_params engW) [] 1)
      ∧ transcribe_params engW =
          { engW.whisper_full_default_params SamplingStrategy.GREEDY with
            print_progress := false
            print_special := false
            print_realtime := false
            print_timestamps := false
            single_segment := true
            max_tokens := 0
            language := some "en"
            n_threads := 4
            speed_up := false
            suppress_blank := true
            suppress_nst := true }
      ∧ (transcribe_params engW).single_segment = true
      ∧ (transcribe_params engW).max_tokens = 0
      ∧ (transcribe_params engW).language = some "en"
      ∧ (transcribe_params engW).n_threads = 4
      ∧ (transcribe_params engW).suppress_blank = true
      ∧ (transcribe_params engW).suppress_nst = true
      ∧ (transcribe_params engW).print_progress = false
      ∧ (transcribe_params engW).print_special = false
      ∧ (transcribe_params engW).print_realtime = false
      ∧ (transcribe_params engW).print_timestamps = false) :=
  ⟨by decide, C5_fixed_params engW (fun _ => true) () [] 1 (by decide)⟩

/-- C1: a fully successful transcription (valid arguments, decode status
0, at least one segment, allocation succeeds) returns exactly the
in-order, separator-free concatenation of the segment texts, and its
trace shows the two-pass structure: decode, segment count, one length
pass over all segments, one allocation of the total length plus one for
the terminator, then one copy pass over all segments. -/
theorem C1_success_concat {Ctx : Type} (eng : WhisperEngine Ctx) (allocOk : Nat → Bool)
    (wctx : Ctx) (smp : List Float) (n_samples : Int)
    (hn : 0 < n_samples)
    (hdec : eng.whisper_full wctx (transcribe_params eng) smp n_samples = 0)
    (hseg : eng.whisper_full_n_segments wctx ≠ 0)
    (halloc : allocOk (total_len eng wctx (eng.whisper_full_n_segments wctx) + 1) = true) :
    whisper_kit_transcribe eng allocOk (some wctx) (some smp) n_samples
      = (some (((List.range (eng.whisper_full_n_segments wctx)).map
            (fun i => (eng.whisper_full_get_segment_text wctx i).getD [])).flatten),
         Event.engDecode (transcribe_params eng) smp n_samples ::
           Event.readNSegments ::
           (List.range (eng.whisper_full_n_segments wctx)).map Event.readSegmentText
           ++ Event.alloc (total_len eng wctx (eng.whisper_full_n_segments wctx) + 1) true ::
               (List.range (eng.whisper_full_n_segments wctx)).map Event.readSegmentText) := by
  simp only [whisper_kit_transcribe]
  rw [if_neg (not_le.mpr hn), if_neg (not_not_intro hdec), if_neg hseg, if_pos halloc,
      concat_segments_eq_join]

/-- Witness for C1 at a concrete engine with two segments, the second of
which has a NULL text. -/
theorem C1_success_concat_witness :
    0 < (1 : Int) ∧
    engW.whisper_full () (transcribe_params engW) [] 1 = 0 ∧
    engW.whisper_full_n_segments () ≠ 0 ∧
    (fun _ : Nat => true) (total_len engW () (engW.whisper_full_n_segments ()) + 1) = true ∧
    whisper_kit_transcribe engW (fun _ => true) (some ()) (some []) 1
      = (some (((List.range (engW.whisper_full_n_segments ())).map
            (fun i => (engW.whisper_full_get_segment_text () i).getD [])).flatten),
         Event.engDecode (transcribe_params engW) [] 1 ::
           Event.readNSegments ::
           (List.range (engW.whisper_full_n_segments ())).map Event.readSegmentText
           ++ Event.alloc (total_len engW () (engW.whisper_full_n_segments ()) + 1) true ::
               (List.range (engW.whisper_full_n_segments ())).map Event.readSegmentText) :=
  ⟨by decide, rfl, by decide, rfl,
   C1_success_concat engW (fun _ => true) () [] 1 (by decide) rfl (by decide) rfl⟩

/-- C2 as stated is too strong: with decode succeeding and zero segments,
the source returns the result of `malloc(1)` directly, which is NULL when
that allocation fails — so "never null" does not hold. Here: decode
status 0, zero segments, failing allocator, result NULL. -/
theorem C2_counterexample :
    0 < (1 : Int) ∧
    engEmpty.whisper_full () (transcribe_params engEmpty) [] 1 = 0 ∧
    engEmpty.whisper_full_n_segments () = 0 ∧
    (whisper_kit_transcribe engEmpty (fun _ => false) (some ()) (some []) 1).1 = none :=
  ⟨by decide, rfl, rfl, rfl⟩

/-- C2 amended: when decode succeeds with zero segments and the one-byte
allocation succeeds, transcribe returns a valid non-NULL empty string,
distinguishable from every failure (which returns NULL). -/
theorem C2_empty_transcript {Ctx : Type} (eng : WhisperEngine Ctx) (allocOk : Nat → Bool)
    (wctx : Ctx) (smp : List Float) (n_samples : Int)
    (hn : 0 < n_samples)
    (hdec : eng.whisper_full wctx (transcribe_params eng) smp n_samples = 0)
    (hseg : eng.whisper_full_n_segments wctx = 0)
    (halloc : allocOk 1 = true) :
    (whisper_kit_transcribe eng allocOk (some wctx) (some smp) n_samples).1 = some []
    ∧ (some ([] : CStr)) ≠ none := by
  refine ⟨?_, by simp⟩
  simp only [whisper_kit_transcribe]
  rw [if_neg (not_le.mpr hn), if_neg (not_not_intro hdec), if_pos hseg, if_pos halloc]

/-- Witness for the amended C2 at a concrete zero-segment engine with a
succeeding allocator. -/
theorem C2_empty_transcript_witness :
    0 < (1 : Int) ∧
    engEmpty.whisper_full () (transcribe_params engEmpty) [] 1 = 0 ∧
    engEmpty.whisper_full_n_segments () = 0 ∧
    (fun _ : Nat => true) 1 = true ∧
    ((whisper_kit_transcribe engEmpty (fun _ => true) (some ()) (some []) 1).1 = some []
      ∧ (some ([] : CStr)) ≠ none) :=
  ⟨by decide, rfl, rfl, rfl,
   C2_empty_transcript engEmpty (fun _ => true) () [] 1 (by decide) rfl rfl rfl⟩

/-- C6 fails as stated: the source sets `use_gpu = true` unconditionally,
with no compile-time guard, so the GPU request is NOT tied to the
condition `whisper_kit_metal_available` reports. Here: the compile-time
flag is off (`metal_available` returns false) and the engine's defaults
do not request the GPU, yet the configuration handed to the load routine
has `use_gpu = true`. -/
theorem C6_counterexample :
    whisper_kit_metal_available false = false ∧
    engW.whisper_context_default_params.use_gpu = false ∧
    (init_context_params engW).use_gpu = true ∧
    (whisper_kit_init engW "model.bin").2
      = [Event.engInitFromFile "model.bin" (init_context_params engW)] :=
  ⟨rfl, rfl, rfl, rfl⟩

/-- C6 amended: on every call, `whisper_kit_init` builds the engine's
default configuration and unconditionally sets the GPU-offload request to
true — regardless of the compile-time flag behind `metal_available` —
before delegating to the engine's load routine (the load call is always
the first observable effect). -/
theorem C6_init_gpu_unconditional {Ctx : Type} (eng : WhisperEngine Ctx) (path : String) :
    (whisper_kit_init eng path).2.head?
      = some (Event.engInitFromFile path
          { eng.whisper_context_default_params with use_gpu := true })
    ∧ (init_context_params eng).use_gpu = true := by
  constructor
  · simp only [whisper_kit_init]
    split <;> rfl
  · rfl

/-- C7: if the engine's load routine returns NULL, init logs a diagnostic
that includes the path and returns a NULL handle, the trace showing
exactly one load attempt (no retry); if the load routine returns a
context, init returns exactly that context as the handle. -/
theorem C7_init_load_result {Ctx : Type} (eng : WhisperEngine Ctx) (path : String) :
    (eng.whisper_init_from_file_with_params path (init_context_params eng) = none →
        whisper_kit_init eng path
          = (none, [Event.engInitFromFile path (init_context_params eng),
                    Event.logErr ("whisper_kit: failed to load model from " ++ path ++ "\n")]))
    ∧ ∀ c : Ctx, eng.whisper_init_from_file_with_params path (init_context_params eng) = some c →
        whisper_kit_init eng path
          = (some c, [Event.engInitFromFile path (init_context_params eng)]) := by
  constructor
  · intro h
    simp only [whisper_kit_init, h]
  · intro c h
    simp only [whisper_kit_init, h]

/-- Witness for C7: a failing load (diagnostic with the path, NULL
handle) and a succeeding load (the engine's context returned). -/
theorem C7_init_load_result_witness :
    whisper_kit_init engNoLoad "m.bin"
      = (none, [Event.engInitFromFile "m.bin" (init_context_params engNoLoad),
                Event.logErr ("whisper_kit: failed to load model from " ++ "m.bin" ++ "\n")])
    ∧ whisper_kit_init engW "m.bin"
      = (some (), [Event.engInitFromFile "m.bin" (init_context_params engW)]) :=
  ⟨(C7_init_load_result engNoLoad "m.bin").1 rfl,
   (C7_init_load_result engW "m.bin").2 () rfl⟩

/-- C10: in the successful non-empty-segment path, a NULL segment text
contributes zero bytes to the precomputed total and is skipped by the
copy loop, so the returned string's byte length equals the precomputed
total exactly, and the bytes written (content plus terminator) never
exceed the allocated size `total_len + 1`. -/
theorem C10_write_length {Ctx : Type} (eng : WhisperEngine Ctx) (allocOk : Nat → Bool)
    (wctx : Ctx) (smp : List Float) (n_samples : Int)
    (hn : 0 < n_samples)
    (hdec : eng.whisper_full wctx (transcribe_params eng) smp n_samples = 0)
    (hseg : eng.whisper_full_n_segments wctx ≠ 0)
    (halloc : allocOk (total_len eng wctx (eng.whisper_full_n_segments wctx) + 1) = true) :
    ∃ s : CStr,
      (whisper_kit_transcribe eng allocOk (some wctx) (some smp) n_samples).1 = some s
      ∧ s.length = total_len eng wctx (eng.whisper_full_n_segments wctx)
      ∧ s.length + 1 ≤ total_len eng wctx (eng.whisper_full_n_segments wctx) + 1
      ∧ ∀ i : Nat, eng.whisper_full_get_segment_text wctx i = none →
          segment_strlen eng wctx i = 0 := by
  refine ⟨concat_segments eng wctx (eng.whisper_full_n_segments wctx), ?_, ?_, ?_, ?_⟩
  · simp only [whisper_kit_transcribe]
    rw [if_neg (not_le.mpr hn), if_neg (not_not_intro hdec), if_neg hseg, if_pos halloc]
  · exact concat_segments_length eng wctx (eng.whisper_full_n_segments wctx)
  · exact Nat.add_le_add_right
      (Nat.le_of_eq (concat_segments_length eng wctx (eng.whisper_full_n_segments wctx))) 1
  · intro i h
    simp [segment_strlen, h]

/-- Witness for C10 at a concrete two-segment engine whose second segment
text is NULL: the returned string is segment 0's two bytes and the
precomputed total is 2. -/
theorem C10_write_length_witness :
    0 < (1 : Int) ∧
    engW.whisper_full () (transcribe_params engW) [] 1 = 0 ∧
    engW.whisper_full_n_segments () ≠ 0 ∧
    (fun _ : Nat => true) (total_len engW () (engW.whisper_full_n_segments ()) + 1) = true ∧
    (∃ s : CStr,
      (whisper_kit_transcribe engW (fun _ => true) (some ()) (some []) 1).1 = some s
      ∧ s.length = total_len engW () (engW.whisper_full_n_segments ())
      ∧ s.length + 1 ≤ total_len engW () (engW.whisper_full_n_segments ()) + 1
      ∧ ∀ i : Nat, engW.whisper_full_get_segment_text () i = none →
          segment_strlen engW () i = 0) :=
  ⟨by decide, rfl, by decide, rfl,
   C10_write_length engW (fun _ => true) () [] 1 (by decide) rfl (by decide) rfl⟩
